import Mathlib

/-!
Shallow embedding of the reading-behaviour estimation and analytics engine of
the sprintreader application (src/estimation/time_estimator.py,
src/estimation/reading_predictor.py, src/analytics/analytics_manager.py).

Modelling conventions:
* Timestamps are rationals measured in days; `Store.now` models `datetime.now()`.
* Durations are minutes (the `duration` column); speeds follow the source units.
* Nullable database columns are `Option`; Python truthiness of a nullable
  numeric (`if x:`) treats both `None` and `0` as false, captured by `qTruthy`
  and `zTruthy`, and Python `x or d` is captured by `pyOrZ`.
* `Store.sessions` is held in the order produced by `ORDER BY start_time DESC`
  (most recent first), so `LIMIT n` becomes `List.take n` after filtering.
* Python float arithmetic is modelled exactly over `ℚ` (and over `ℝ` where a
  square root is taken).  `round(x, 1)` / `round(x, 2)` are modelled by
  `roundQ1` / `roundQ2` / `roundTo1R` using Mathlib `round` (half up); CPython
  rounds ties to even, but no statement below sits on a tie.
* A `none` result models the Python empty dict `{}` for operations whose body
  is guarded by try/except, except where a doc comment says it models an
  uncaught exception escaping to the caller.
* Display-only fields of the returned dicts (formatted duration strings and
  free-text recommendations of the estimator) are omitted from the result
  records; every field a claim touches is present.
-/

namespace SprintReader

/-- Row of the `reading_sessions` table (database/models.py, ReadingSession).
Only the columns read by the estimation and analytics code are modelled. -/
structure ReadingSession where
  document_id : Nat
  start_time : ℚ
  duration : Option ℚ
  pages_read : Option ℤ
  session_type : Option String
deriving DecidableEq

/-- Row of the `documents` table (database/models.py, Document). -/
structure Document where
  id : Nat
  total_pages : Option ℤ
  current_page : Option ℤ
deriving DecidableEq

/-- The session store the components query, plus the wall clock `now`
(in days).  `sessions` is held most-recent-first (see module comment). -/
structure Store where
  documents : List Document
  sessions : List ReadingSession
  now : ℚ
deriving DecidableEq

/-- Python truthiness of a nullable float column: `None` and `0` are falsy. -/
def qTruthy : Option ℚ → Bool
  | none => false
  | some v => v != 0

/-- Python truthiness of a nullable integer column: `None` and `0` are falsy. -/
def zTruthy : Option ℤ → Bool
  | none => false
  | some v => v != 0

/-- Python `x or d` on a nullable integer column: `None` and `0` give `d`. -/
def pyOrZ (x : Option ℤ) (d : ℤ) : ℤ :=
  match x with
  | none => d
  | some v => if v = 0 then d else v

/-- Python `round(q, 1)` (see module comment on ties). -/
def roundQ1 (q : ℚ) : ℚ := (round (q * 10) : ℤ) / 10

/-- Python `round(q, 2)` (see module comment on ties). -/
def roundQ2 (q : ℚ) : ℚ := (round (q * 100) : ℤ) / 100

/-- Python `round(x, 1)` over the reals (see module comment on ties). -/
noncomputable def roundTo1R (x : ℝ) : ℝ := (round (x * 10) : ℤ) / 10

/-! ## TimeEstimator (src/estimation/time_estimator.py) -/

/-- `TimeEstimator.minimum_sample_pages`. -/
def minimum_sample_pages : ℤ := 3

/-- `TimeEstimator.default_time_per_page` (seconds). -/
def default_time_per_page : ℚ := 120

/-- The ten most recent sessions of a document:
`query(ReadingSession).filter_by(document_id=...).order_by(start_time.desc()).limit(10)`. -/
def docRecentSessions (st : Store) (docId : Nat) : List ReadingSession :=
  (st.sessions.filter (fun s => s.document_id == docId)).take 10

/-- The per-session test of `_get_document_reading_speed`:
`if session.duration and session.pages_read and session.pages_read > 0`. -/
def docQualifies (s : ReadingSession) : Bool :=
  qTruthy s.duration && zTruthy s.pages_read && decide (0 < s.pages_read.getD 0)

/-- The SQL filter of `_get_user_overall_reading_speed`:
`duration.isnot(None) and pages_read.isnot(None) and pages_read > 0`. -/
def globalQualifies (s : ReadingSession) : Bool :=
  s.duration.isSome && s.pages_read.isSome && decide (0 < s.pages_read.getD 0)

/-- The fifty most recent qualifying sessions across all documents
(the SQL filter applies before the `LIMIT 50`). -/
def globalRecentSessions (st : Store) : List ReadingSession :=
  (st.sessions.filter globalQualifies).take 50

/-- Total pages accumulated by the global fold of
`_get_user_overall_reading_speed`. -/
def globalTotalPages (st : Store) : ℤ :=
  (globalRecentSessions st |>.map (fun s => s.pages_read.getD 0)).sum

/-- Total seconds accumulated by the global fold (`duration * 60`). -/
def globalTotalTime (st : Store) : ℚ :=
  (globalRecentSessions st |>.map (fun s => s.duration.getD 0 * 60)).sum

/-- `TimeEstimator._get_user_overall_reading_speed`. -/
def _get_user_overall_reading_speed (st : Store) : ℚ :=
  if minimum_sample_pages ≤ globalTotalPages st then
    globalTotalTime st / (globalTotalPages st : ℚ)
  else
    default_time_per_page

/-- Total pages accumulated by the per-document fold of
`_get_document_reading_speed`. -/
def docTotalPages (st : Store) (docId : Nat) : ℤ :=
  ((docRecentSessions st docId).filter docQualifies |>.map
    (fun s => s.pages_read.getD 0)).sum

/-- Total seconds accumulated by the per-document fold (`duration * 60`). -/
def docTotalTime (st : Store) (docId : Nat) : ℚ :=
  ((docRecentSessions st docId).filter docQualifies |>.map
    (fun s => s.duration.getD 0 * 60)).sum

/-- `TimeEstimator._get_document_reading_speed`. -/
def _get_document_reading_speed (st : Store) (docId : Nat) : ℚ :=
  if minimum_sample_pages ≤ docTotalPages st docId then
    docTotalTime st docId / (docTotalPages st docId : ℚ)
  else
    _get_user_overall_reading_speed st

/-- Durations of the sessions of the last thirty days that have a non-null
duration, as queried by `_get_daily_reading_average`. -/
def windowDurations (st : Store) : List ℚ :=
  (st.sessions.filter
    (fun s => decide (st.now - 30 ≤ s.start_time) && s.duration.isSome)).map
    (fun s => s.duration.getD 0)

/-- `TimeEstimator._get_daily_reading_average`: the SQL `AVG` is `None` on an
empty set, and `float(result) if result else 30.0` maps both `None` and an
average of exactly `0` to the 30-minute default. -/
def _get_daily_reading_average (st : Store) : ℚ :=
  let ds := windowDurations st
  if ds = [] then 30
  else
    let avg := ds.sum / (ds.length : ℚ)
    if avg = 0 then 30 else avg

/-- Number of recorded sessions of a document
(`query(ReadingSession).filter_by(document_id=...).count()`). -/
def docSessionCount (st : Store) (docId : Nat) : ℕ :=
  (st.sessions.filter (fun s => s.document_id == docId)).length

/-- `TimeEstimator._calculate_confidence_level`. -/
def _calculate_confidence_level (st : Store) (docId : Nat) : String :=
  if 5 ≤ docSessionCount st docId then "High"
  else if 2 ≤ docSessionCount st docId then "Medium"
  else "Low"

/-- `remaining_pages = max(0, total_pages - current_page)` with the Python
defaults `current_page or 1` and `total_pages or 0`. -/
def docRemainingPages (doc : Document) : ℤ :=
  max 0 (pyOrZ doc.total_pages 0 - pyOrZ doc.current_page 1)

/-- The raw (unrounded) `estimated_minutes` of
`estimate_document_completion`: `remaining_pages * avg_time_per_page / 60`. -/
def docEstimatedMinutes (st : Store) (docId : Nat) (doc : Document) : ℚ :=
  (docRemainingPages doc : ℚ) * _get_document_reading_speed st docId / 60

/-- The dict returned by `TimeEstimator.estimate_document_completion`
(display-only string fields omitted). -/
structure DocEstimate where
  document_id : Nat
  total_pages : ℤ
  current_page : ℤ
  remaining_pages : ℤ
  progress_percent : ℚ
  avg_time_per_page_seconds : ℚ
  estimated_time_remaining_minutes : ℚ
  estimated_completion_date : Option ℚ
  confidence_level : String
deriving DecidableEq

/-- `TimeEstimator.estimate_document_completion`.  `none` models the empty
dict returned for a missing document.  Note `if days_to_complete:` is Python
truthiness, so a zero `days_to_complete` also leaves the completion date
`None`. -/
def estimate_document_completion (st : Store) (docId : Nat) :
    Option DocEstimate :=
  match st.documents.find? (fun d => d.id == docId) with
  | none => none
  | some doc =>
    let current_page := pyOrZ doc.current_page 1
    let total_pages := pyOrZ doc.total_pages 0
    let estimated_minutes := docEstimatedMinutes st docId doc
    let progress_percent : ℚ :=
      if 0 < total_pages then (current_page : ℚ) / (total_pages : ℚ) * 100
      else 0
    let daily_avg := _get_daily_reading_average st
    -- `days_to_complete = estimated_minutes / daily_avg if daily_avg > 0 else
    -- None` followed by `if days_to_complete:` — the two truthiness guards
    -- merge into nested conditionals on the same quantities.
    let estimated_completion_date : Option ℚ :=
      if 0 < daily_avg then
        (if estimated_minutes / daily_avg = 0 then none
         else some (st.now + estimated_minutes / daily_avg))
      else none
    some
      { document_id := docId
        total_pages := total_pages
        current_page := current_page
        remaining_pages := docRemainingPages doc
        progress_percent := roundQ1 progress_percent
        avg_time_per_page_seconds := roundQ1 (_get_document_reading_speed st docId)
        estimated_time_remaining_minutes := roundQ1 estimated_minutes
        estimated_completion_date := estimated_completion_date
        confidence_level := _calculate_confidence_level st docId }

/-- The dict returned by `TimeEstimator.estimate_goal_feasibility`.
The short-circuit branch for a past deadline returns a dict holding only
`feasible`, `reason` and `required_daily_minutes`; fields absent from a
branch are `none` here (and `reason` is present only in that branch). -/
structure GoalResult where
  feasible : Bool
  reason : Option String
  required_daily_minutes : ℚ
  days_available : Option ℤ
  total_estimated_minutes : Option ℚ
  current_daily_average : Option ℚ
deriving DecidableEq

/-- The documents selected by `estimate_goal_feasibility`: Python
`if document_ids:` is truthiness, so an empty list also selects all. -/
def goalDocuments (st : Store) (documentIds : Option (List Nat)) :
    List Document :=
  match documentIds with
  | some ids => if ids.isEmpty then st.documents
                else st.documents.filter (fun d => ids.contains d.id)
  | none => st.documents

/-- Sum of `estimate.get('estimated_time_remaining_minutes', 0)` over the
selected documents (the per-document values are the rounded ones). -/
def goalTotalMinutes (st : Store) (documentIds : Option (List Nat)) : ℚ :=
  ((goalDocuments st documentIds).map (fun d =>
    ((estimate_document_completion st d.id).map
      (fun e => e.estimated_time_remaining_minutes)).getD 0)).sum

/-- `days_available = (target_date - datetime.now()).days`: the `days` field
of a `timedelta` floors towards minus infinity. -/
def goalDaysAvailable (st : Store) (target : ℚ) : ℤ := ⌊target - st.now⌋

/-- `TimeEstimator.estimate_goal_feasibility` (display-only fields omitted). -/
def estimate_goal_feasibility (st : Store) (target : ℚ)
    (documentIds : Option (List Nat)) : GoalResult :=
  let total := goalTotalMinutes st documentIds
  let days := goalDaysAvailable st target
  if days ≤ 0 then
    { feasible := false
      reason := some "Target date is in the past or today"
      required_daily_minutes := 0
      days_available := none
      total_estimated_minutes := none
      current_daily_average := none }
  else
    let required := total / (days : ℚ)
    let avg := _get_daily_reading_average st
    { feasible := decide (required ≤ avg * (3 / 2))
      reason := none
      required_daily_minutes := roundQ1 required
      days_available := some days
      total_estimated_minutes := some (roundQ1 total)
      current_daily_average := some (roundQ1 avg) }

/-- The dict returned by `TimeEstimator.estimate_all_documents_completion`
(display-only fields omitted). -/
structure PortfolioEstimate where
  total_documents : ℕ
  completed_documents : ℕ
  completion_percentage : ℚ
  total_estimated_time_minutes : ℚ
  daily_average_reading_minutes : ℚ
  estimated_days_to_complete : Option ℚ
deriving DecidableEq

/-- The per-document estimates collected by
`estimate_all_documents_completion` (`if estimate:` skips empty dicts). -/
def portfolioEstimates (st : Store) : List DocEstimate :=
  st.documents.filterMap (fun d => estimate_document_completion st d.id)

/-- `TimeEstimator.estimate_all_documents_completion`.  As in the source,
`round(days_to_complete_all, 1) if days_to_complete_all else None` is Python
truthiness, so a zero value is also reported as `None`. -/
def estimate_all_documents_completion (st : Store) : PortfolioEstimate :=
  let ests := portfolioEstimates st
  let total_minutes := (ests.map (fun e => e.estimated_time_remaining_minutes)).sum
  let completed := (ests.filter (fun e => e.remaining_pages == 0)).length
  let daily_avg := _get_daily_reading_average st
  let days_to_complete : Option ℚ :=
    if 0 < daily_avg then some (total_minutes / daily_avg) else none
  let total_documents := st.documents.length
  { total_documents := total_documents
    completed_documents := completed
    completion_percentage :=
      if 0 < total_documents then
        roundQ1 ((completed : ℚ) / (total_documents : ℚ) * 100)
      else 0
    total_estimated_time_minutes := roundQ1 total_minutes
    daily_average_reading_minutes := roundQ1 daily_avg
    estimated_days_to_complete :=
      match days_to_complete with
      | some d => if d = 0 then none else some (roundQ1 d)
      | none => none }

/-! ## AnalyticsManager (src/analytics/analytics_manager.py) -/

/-- Arithmetic mean of a list of rationals (`sum(xs) / len(xs)`,
`statistics.mean`). -/
def listMean (xs : List ℚ) : ℚ := xs.sum / (xs.length : ℚ)

/-- Population variance, as computed inline by
`AnalyticsManager._calculate_consistency_score`:
`sum((t - mean) ** 2 for t in times) / len(times)`. -/
def popVariance (xs : List ℚ) : ℚ :=
  ((xs.map (fun t => (t - listMean xs) ^ 2)).sum) / (xs.length : ℚ)

/-- Sample variance, the square of `statistics.stdev` used by
`ReadingPredictor._calculate_consistency_score` (Bessel corrected,
denominator `len - 1`). -/
def sampleVariance (xs : List ℚ) : ℚ :=
  ((xs.map (fun t => (t - listMean xs) ^ 2)).sum) / ((xs.length - 1 : ℕ) : ℚ)

/-- `AnalyticsManager._calculate_consistency_score`, modelled on the list of
`reading_time` values extracted from the trend entries.  The standard
deviation is `variance ** 0.5` on the population variance. -/
noncomputable def analyticsConsistencyScore (times : List ℚ) : ℝ :=
  if times.length < 2 then 0
  else if listMean times = 0 then 0
  else
    roundTo1R (max 0 (100 -
      Real.sqrt ((popVariance times : ℚ) : ℝ) / ((listMean times : ℚ) : ℝ) * 100))

/-- `ReadingPredictor._calculate_consistency_score`.  With two or more data
points and a zero mean, `std_dev / mean_length` raises `ZeroDivisionError`
(there is no mean-zero guard in this copy of the formula); `none` models
that exception, which only the caller's component-boundary handler catches. -/
noncomputable def predictorConsistencyScore (xs : List ℚ) : Option ℝ :=
  if xs.length < 2 then some 0
  else if listMean xs = 0 then none
  else
    some (roundTo1R (max 0 (100 -
      Real.sqrt ((sampleVariance xs : ℚ) : ℝ) / ((listMean xs : ℚ) : ℝ) * 100)))

/-- Python `max(xs, key=f)` with `xs = x :: rest`: the first element with the
maximal key (later elements replace the best only on a strictly larger key). -/
def maxByFirst {α : Type} (f : α → ℚ) (x : α) (rest : List α) : α :=
  rest.foldl (fun b y => if f b < f y then y else b) x

/-- Python `min(xs, key=f)` with `xs = x :: rest`: the first element with the
minimal key. -/
def minByFirst {α : Type} (f : α → ℚ) (x : α) (rest : List α) : α :=
  rest.foldl (fun b y => if f y < f b then y else b) x

/-- The dict returned by `AnalyticsManager.get_daily_stats` (the
per-session-type histogram is omitted; no claim touches it). -/
structure DailyStat where
  date : ℤ
  total_reading_time : ℚ
  total_pages_read : ℤ
  session_count : ℕ
  average_reading_speed : ℚ
  longest_session : ℚ
deriving DecidableEq

/-- Sessions whose `start_time` falls on calendar day `d` (the source window
`[00:00, 23:59:59.999999]` is the whole day; modelled half-open). -/
def sessionsOnDay (st : Store) (d : ℤ) : List ReadingSession :=
  st.sessions.filter
    (fun s => decide ((d : ℚ) ≤ s.start_time) && decide (s.start_time < (d : ℚ) + 1))

/-- Python `max(l)` for a guarded-nonempty list (`0` is never used: callers
check emptiness first, as the source does). -/
def listMaxD : List ℚ → ℚ
  | [] => 0
  | x :: xs => xs.foldl max x

/-- `AnalyticsManager.get_daily_stats` for day `d`.  The try/except never
fires: every division and `max` in the body is guarded. -/
def get_daily_stats (st : Store) (d : ℤ) : DailyStat :=
  let ss := sessionsOnDay st d
  let total_time : ℚ := (ss.map (fun s => s.duration.getD 0)).sum
  let total_pages : ℤ := (ss.map (fun s => s.pages_read.getD 0)).sum
  let avg_speed : ℚ :=
    if 0 < total_time then (total_pages : ℚ) / total_time else 0
  { date := d
    total_reading_time := roundQ1 total_time
    total_pages_read := total_pages
    session_count := ss.length
    average_reading_speed := roundQ2 avg_speed
    longest_session :=
      if ss.isEmpty then 0 else listMaxD (ss.map (fun s => s.duration.getD 0)) }

/-- `AnalyticsManager._calculate_reading_streak`: walk backward day by day
from `week_end` while each day has at least one session, stopping at the
first empty day or below `week_start`. -/
def _calculate_reading_streak (st : Store) (week_start week_end : ℤ) : ℕ :=
  (((List.range (week_end - week_start + 1).toNat).map
      (fun i => week_end - Int.ofNat i)).takeWhile
    (fun d => 0 < (get_daily_stats st d).session_count)).length

/-- The dict returned by `AnalyticsManager.get_weekly_stats`. -/
structure WeeklyStat where
  week_start : ℤ
  week_end : ℤ
  daily_stats : List DailyStat
  total_reading_time : ℚ
  total_pages_read : ℤ
  total_sessions : ℕ
  average_daily_time : ℚ
  average_daily_pages : ℚ
  most_productive_day : ℤ
  streak_days : ℕ
deriving DecidableEq

/-- `AnalyticsManager.get_weekly_stats` for a given `week_start` day.  The
body cannot raise: the seven-day list fed to `max` is never empty. -/
def get_weekly_stats (st : Store) (week_start : ℤ) : WeeklyStat :=
  let days := (List.range 7).map (fun i => week_start + Int.ofNat i)
  let daily := days.map (get_daily_stats st)
  let total_time := (daily.map (fun d => d.total_reading_time)).sum
  let total_pages := (daily.map (fun d => d.total_pages_read)).sum
  let total_sessions := (daily.map (fun d => d.session_count)).sum
  { week_start := week_start
    week_end := week_start + 6
    daily_stats := daily
    total_reading_time := roundQ1 total_time
    total_pages_read := total_pages
    total_sessions := total_sessions
    average_daily_time := roundQ1 (total_time / 7)
    average_daily_pages := roundQ1 ((total_pages : ℚ) / 7)
    most_productive_day :=
      (maxByFirst (fun d => d.total_reading_time) (get_daily_stats st week_start)
        ((days.drop 1).map (get_daily_stats st))).date
    streak_days := _calculate_reading_streak st week_start (week_start + 6) }

/-- The dict returned by `AnalyticsManager.get_reading_trends`.  A trend
entry carries the date, reading time, pages and session count of one day,
all taken from that day's `get_daily_stats` dict, so the entries are
modelled as the `DailyStat` records themselves. -/
structure TrendReport where
  period_days : ℤ
  start_date : ℤ
  end_date : ℤ
  daily_trends : List DailyStat
  total_reading_time : ℚ
  total_pages_read : ℤ
  average_daily_time : ℚ
  trend_direction : String
  recent_7day_avg : ℚ
  previous_7day_avg : ℚ
  best_day : DailyStat
  worst_day : DailyStat
  consistency_score : ℝ

/-- The per-day entries of `get_reading_trends`: one `daily_stats` result for
each of the `days` consecutive days ending today (`range(days)` is empty
when `days <= 0`). -/
def trendEntries (st : Store) (days : ℤ) : List DailyStat :=
  (List.range days.toNat).map
    (fun i => get_daily_stats st (⌊st.now⌋ - (days - 1) + Int.ofNat i))

/-- `AnalyticsManager.get_reading_trends`.  The body has no try/except; when
the per-day list is empty (`days <= 0`), `max(trends, key=...)` raises
`ValueError`, which propagates to the caller — `none` models that uncaught
exception, not an empty result. -/
noncomputable def get_reading_trends (st : Store) (days : ℤ) :
    Option TrendReport :=
  match trendEntries st days with
  | [] => none
  | t :: ts =>
    let trends := t :: ts
    let total_time : ℚ := (trends.map (fun d => d.total_reading_time)).sum
    let total_pages : ℤ := (trends.map (fun d => d.total_pages_read)).sum
    let recent_avg : ℚ :=
      ((trends.drop (trends.length - 7)).map
        (fun d => d.total_reading_time)).sum / 7
    let previous_avg : ℚ :=
      (((trends.take (trends.length - 7)).drop (trends.length - 14)).map
        (fun d => d.total_reading_time)).sum / 7
    let trend_direction :=
      if |recent_avg - previous_avg| < 1 / 10 then "stable"
      else if previous_avg < recent_avg then "improving"
      else "declining"
    some
      { period_days := days
        start_date := ⌊st.now⌋ - (days - 1)
        end_date := ⌊st.now⌋
        daily_trends := trends
        total_reading_time := roundQ1 total_time
        total_pages_read := total_pages
        average_daily_time := roundQ1 (total_time / (days : ℚ))
        trend_direction := trend_direction
        recent_7day_avg := roundQ1 recent_avg
        previous_7day_avg := roundQ1 previous_avg
        best_day := maxByFirst (fun d => d.total_reading_time) t ts
        worst_day := minByFirst (fun d => d.total_reading_time) t ts
        consistency_score :=
          analyticsConsistencyScore (trends.map (fun d => d.total_reading_time)) }

/-- The per-mode summary built by the local `analyze_sessions` helper of
`get_timer_mode_effectiveness`.  For an empty partition the source returns a
dict holding only `mode` and `sessions`; the absent numeric keys are `none`. -/
structure ModeStats where
  mode : String
  sessions : ℕ
  total_time : Option ℚ
  total_pages : Option ℤ
  average_speed : Option ℚ
  average_duration : Option ℚ
  pages_per_session : Option ℚ
deriving DecidableEq

/-- Sessions with a given `session_type` tag
(`query(ReadingSession).filter_by(session_type=...)`; a SQL equality match,
so `NULL` tags never match). -/
def sessionsByType (st : Store) (ty : String) : List ReadingSession :=
  st.sessions.filter (fun s => s.session_type == some ty)

/-- The local `analyze_sessions(sessions, mode_name)` helper of
`get_timer_mode_effectiveness`. -/
def analyzeSessions (ss : List ReadingSession) (mode_name : String) :
    ModeStats :=
  if ss.isEmpty then
    { mode := mode_name, sessions := 0, total_time := none, total_pages := none
      average_speed := none, average_duration := none, pages_per_session := none }
  else
    let total_time : ℚ := (ss.map (fun s => s.duration.getD 0)).sum
    let total_pages : ℤ := (ss.map (fun s => s.pages_read.getD 0)).sum
    let avg_speed : ℚ :=
      if 0 < total_time then (total_pages : ℚ) / total_time else 0
    { mode := mode_name
      sessions := ss.length
      total_time := some (roundQ1 total_time)
      total_pages := some total_pages
      average_speed := some (roundQ2 avg_speed)
      average_duration := some (roundQ1 (total_time / (ss.length : ℚ)))
      pages_per_session := some (roundQ1 ((total_pages : ℚ) / (ss.length : ℚ))) }

/-- `AnalyticsManager._get_mode_recommendation`.  The source indexes
`m['average_speed']` directly on all three summaries; when any of them is the
empty-partition form that key is absent and a `KeyError` is raised, modelled
by `none`. -/
def _get_mode_recommendation (p s r : ModeStats) : Option String :=
  match p.average_speed, s.average_speed, r.average_speed with
  | some ps, some ss, some rs =>
    some (if ss < ps ∧ rs < ps then
            "Try more Pomodoro sessions for better focus and speed"
          else if rs < ss then
            "Sprint sessions work well for you - consider more quick reading bursts"
          else
            "Regular reading sessions suit your style - maintain your current approach")
  | _, _, _ => none

/-- The dict returned by `AnalyticsManager.get_timer_mode_effectiveness`. -/
structure ModeComparison where
  pomodoro : ModeStats
  sprint : ModeStats
  regular : ModeStats
  most_effective_mode : String
  recommendation : String
deriving DecidableEq

/-- `AnalyticsManager.get_timer_mode_effectiveness`.  `none` models the empty
dict the component-boundary handler returns when `_get_mode_recommendation`
raises `KeyError`; `most_effective` uses `x.get('average_speed', 0)` and so
never raises. -/
def get_timer_mode_effectiveness (st : Store) : Option ModeComparison :=
  let p := analyzeSessions (sessionsByType st "pomodoro") "Pomodoro"
  let s := analyzeSessions (sessionsByType st "sprint") "Sprint"
  let r := analyzeSessions (sessionsByType st "regular") "Regular"
  match _get_mode_recommendation p s r with
  | none => none
  | some rec =>
    some
      { pomodoro := p, sprint := s, regular := r
        most_effective_mode :=
          (maxByFirst (fun m => m.average_speed.getD 0) p [s, r]).mode
        recommendation := rec }

/-! ## ReadingPredictor (src/estimation/reading_predictor.py) -/

/-- The dict returned by `ReadingPredictor.analyze_reading_patterns`
(the recommendations list is kept; other dicts are modelled by fields). -/
structure PatternReport where
  total_sessions_analyzed : ℕ
  average_session_length : ℚ
  average_pages_per_session : ℚ
  most_productive_hour : Option ℤ
  reading_speed_trend : String
  recent_avg_speed : ℚ
  historical_avg_speed : ℚ
  consistency_score : ℝ
  recommendations : List String

/-- Hour component of a timestamp measured in days:
`datetime.hour = floor(24 * t) mod 24`. -/
def sessionHour (s : ReadingSession) : ℤ := ⌊s.start_time * 24⌋ % 24

/-- The distinct hours in first-appearance order: insertion order of the
`hour_counts` dict built by `analyze_reading_patterns`. -/
def hoursInOrder (ss : List ReadingSession) : List ℤ :=
  (ss.map sessionHour).foldl
    (fun acc h => if acc.contains h then acc else acc ++ [h]) []

/-- `ReadingPredictor._calculate_recent_reading_speed`: pages per minute over
the sessions of the last seven days (all sessions, not the 100-session
window), with Python-truthy filters inside the two sums. -/
def _calculate_recent_reading_speed (st : Store) : ℚ :=
  let ss := st.sessions.filter (fun s => decide (st.now - 7 ≤ s.start_time))
  let total_time : ℚ :=
    ((ss.filter (fun s => qTruthy s.duration)).map (fun s => s.duration.getD 0)).sum
  let total_pages : ℤ :=
    ((ss.filter (fun s => zTruthy s.pages_read)).map (fun s => s.pages_read.getD 0)).sum
  if 0 < total_time then (total_pages : ℚ) / total_time else 0

/-- `ReadingPredictor._calculate_historical_reading_speed`: the same figure
over `start_time.between(now - 30, now - 7)` (SQL `BETWEEN` is inclusive). -/
def _calculate_historical_reading_speed (st : Store) : ℚ :=
  let ss := st.sessions.filter (fun s =>
    decide (st.now - 30 ≤ s.start_time) && decide (s.start_time ≤ st.now - 7))
  let total_time : ℚ :=
    ((ss.filter (fun s => qTruthy s.duration)).map (fun s => s.duration.getD 0)).sum
  let total_pages : ℤ :=
    ((ss.filter (fun s => zTruthy s.pages_read)).map (fun s => s.pages_read.getD 0)).sum
  if 0 < total_time then (total_pages : ℚ) / total_time else 0

/-- `ReadingPredictor._generate_pattern_recommendations`. -/
def _generate_pattern_recommendations (ss : List ReadingSession) :
    List String :=
  let unique_dates : ℕ :=
    ((ss.map (fun s => ⌊s.start_time⌋)).foldl
      (fun acc d => if acc.contains d then acc else acc ++ [d]) []).length
  (if ss.length < 10 then
    ["Build more reading data for better predictions"] else []) ++
  (if (unique_dates : ℚ) < (ss.length : ℚ) * (7 / 10) then
    ["Try spreading reading across more days for better retention"] else [])

/-- `ReadingPredictor.analyze_reading_patterns` over the 100 most recent
sessions.  `none` models the empty dict `{}`: returned directly when there
are no sessions, and by the component-boundary handler when the
consistency-score helper raises on a zero mean. -/
noncomputable def analyze_reading_patterns (st : Store) : Option PatternReport :=
  let sessions := st.sessions.take 100
  if sessions.isEmpty then none
  else
    let session_lengths :=
      (sessions.filter (fun s => qTruthy s.duration)).map (fun s => s.duration.getD 0)
    let pages_per_session :=
      (sessions.filter (fun s => zTruthy s.pages_read)).map (fun s => s.pages_read.getD 0)
    let most_productive_hour : Option ℤ :=
      match hoursInOrder sessions with
      | [] => none
      | h :: hs =>
        some (maxByFirst
          (fun h => ((sessions.filter (fun s => sessionHour s == h)).length : ℚ))
          h hs)
    let recent := _calculate_recent_reading_speed st
    let historical := _calculate_historical_reading_speed st
    match predictorConsistencyScore session_lengths with
    | none => none
    | some cs =>
      some
        { total_sessions_analyzed := sessions.length
          average_session_length :=
            if session_lengths.isEmpty then 0 else roundQ1 (listMean session_lengths)
          average_pages_per_session :=
            if pages_per_session.isEmpty then 0
            else roundQ1 (((pages_per_session.sum : ℤ) : ℚ) / (pages_per_session.length : ℚ))
          most_productive_hour := most_productive_hour
          reading_speed_trend :=
            if historical < recent then "improving" else "declining"
          recent_avg_speed := roundQ2 recent
          historical_avg_speed := roundQ2 historical
          consistency_score := cs
          recommendations := _generate_pattern_recommendations sessions }

/-! ## Example stores used by witnesses and counterexamples -/

/-- A store with no documents and no sessions. -/
def emptyStore : Store := ⟨[], [], 0⟩

/-- A pomodoro session with data. -/
def pomSession : ReadingSession := ⟨1, 0, some 10, some 5, some "pomodoro"⟩

/-- A regular session with data. -/
def regSession : ReadingSession := ⟨1, 0, some 10, some 5, some "regular"⟩

/-- A store with pomodoro and regular data but no sprint sessions. -/
def modesStore : Store := ⟨[], [pomSession, pomSession, regSession, regSession], 0⟩

/-- A store with one recent 5-minute session. -/
def oneSessionStore : Store := ⟨[], [⟨1, 0, some 5, some 1, none⟩], 0⟩

/-- A store whose only document is fully read (page 10 of 10). -/
def doneDocStore : Store := ⟨[⟨1, some 10, some 10⟩], [], 0⟩

/-- A store whose only document is past its last page (page 11 of 10). -/
def pastDocStore : Store := ⟨[⟨1, some 10, some 11⟩], [], 0⟩

/-- A store whose only document has 5 of 6 pages left to read. -/
def fivePagesStore : Store := ⟨[⟨1, some 6, some 1⟩], [], 0⟩

/-- A store whose only document has 9 of 10 pages left to read. -/
def ninePagesStore : Store := ⟨[⟨1, some 10, some 1⟩], [], 0⟩

/-! ## C1: the fallback chain of the speed estimator -/

/-- C1: for every store, a document whose ten most recent sessions contain no
qualifying session (duration and pages_read present and pages_read positive)
gets exactly the global estimator's time per page, and whenever the global
fold over the fifty most recent qualifying sessions across all documents
accumulates fewer than the three-page minimum sample, that global value is
exactly 120.0 seconds per page. -/
theorem time_per_page_fallback_chain (st : Store) (docId : Nat)
    (h : (docRecentSessions st docId).filter docQualifies = []) :
    _get_document_reading_speed st docId = _get_user_overall_reading_speed st ∧
      (globalTotalPages st < minimum_sample_pages →
        _get_user_overall_reading_speed st = 120) := by
  constructor
  · have hp : docTotalPages st docId = 0 := by
      simp [docTotalPages, h]
    rw [_get_document_reading_speed, if_neg]
    rw [hp, minimum_sample_pages]
    decide
  · intro hlt
    rw [_get_user_overall_reading_speed, if_neg (by omega),
      default_time_per_page]

/-- Witness for C1: on the empty store the document estimator falls through
both stages to the 120-second default. -/
theorem time_per_page_fallback_chain_witness :
    _get_document_reading_speed emptyStore 1 = 120 := by
  have h := time_per_page_fallback_chain emptyStore 1 (by rfl)
  rw [h.1, h.2 (by decide)]

/-! ## C8: confidence label classification -/

/-- C8: the confidence label attached to an estimate is exactly determined by
the document's recorded session count: Low for 0 or 1 sessions, Medium for 2
through 4, High for 5 or more. -/
theorem confidence_level_classification (st : Store) (docId : Nat) :
    (docSessionCount st docId ≤ 1 →
      _calculate_confidence_level st docId = "Low") ∧
    (2 ≤ docSessionCount st docId → docSessionCount st docId ≤ 4 →
      _calculate_confidence_level st docId = "Medium") ∧
    (5 ≤ docSessionCount st docId →
      _calculate_confidence_level st docId = "High") := by
  unfold _calculate_confidence_level
  refine ⟨?_, ?_, ?_⟩ <;> intros <;> split_ifs <;> first | rfl | omega

/-- Witness for C8: a document with no sessions is classified Low. -/
theorem confidence_level_classification_witness :
    _calculate_confidence_level emptyStore 1 = "Low" :=
  (confidence_level_classification emptyStore 1).1 (by decide)

/-! ## C9: the daily reading average is always positive -/

/-- C9: assuming every stored duration is non-negative, the daily reading
average is strictly positive: it is 30.0 when no session of the last 30 days
has a non-null duration, it is 30.0 again when the mean over that window is
exactly 0 (the SQL average is falsy in `float(result) if result else 30.0`),
and otherwise it is the strictly positive mean, so `daily_average_minutes ≤ 0`
cannot occur downstream. -/
theorem daily_reading_average_positive (st : Store)
    (h : ∀ s ∈ st.sessions, ∀ d, s.duration = some d → 0 ≤ d) :
    0 < _get_daily_reading_average st ∧
      (windowDurations st = [] → _get_daily_reading_average st = 30) ∧
      ((windowDurations st).sum / ((windowDurations st).length : ℚ) = 0 →
        _get_daily_reading_average st = 30) := by
  have hnn : ∀ x ∈ windowDurations st, 0 ≤ x := by
    intro x hx
    obtain ⟨s, hs, hval⟩ := List.mem_map.1 hx
    have hmem := List.mem_filter.1 hs
    have hsome : s.duration.isSome := by
      have := hmem.2
      simp only [Bool.and_eq_true, decide_eq_true_eq] at this
      exact this.2
    obtain ⟨d, hd⟩ := Option.isSome_iff_exists.1 hsome
    have := h s hmem.1 d hd
    rw [hd] at hval
    simpa [← hval] using this
  refine ⟨?_, ?_, ?_⟩
  · simp only [_get_daily_reading_average]
    split_ifs with he hz
    · norm_num
    · norm_num
    · have hsum : 0 ≤ (windowDurations st).sum := List.sum_nonneg hnn
      have hq : 0 ≤ (windowDurations st).sum /
          ((windowDurations st).length : ℚ) :=
        div_nonneg hsum (by positivity)
      exact lt_of_le_of_ne hq (Ne.symm hz)
  · intro he
    simp only [_get_daily_reading_average]
    rw [if_pos he]
  · intro hz
    simp only [_get_daily_reading_average]
    split_ifs with he
    · rfl
    · rfl

/-- Witness for C9: a store with one 5-minute session has a positive daily
average. -/
theorem daily_reading_average_positive_witness :
    0 < _get_daily_reading_average oneSessionStore :=
  (daily_reading_average_positive oneSessionStore (by decide)).1

/-! ## C10: timer mode effectiveness with an empty partition -/

/-- C10: whenever at least one of the three session types has no recorded
sessions, `get_timer_mode_effectiveness` returns the empty result: the empty
partition's summary has no `average_speed` key, the recommendation lookup
raises `KeyError`, and the component boundary swallows it — regardless of how
much data the other modes have. -/
theorem timer_mode_empty_partition (st : Store)
    (h : sessionsByType st "pomodoro" = [] ∨ sessionsByType st "sprint" = [] ∨
      sessionsByType st "regular" = []) :
    get_timer_mode_effectiveness st = none := by
  rcases h with h | h | h
  · simp [get_timer_mode_effectiveness, h, analyzeSessions,
      _get_mode_recommendation]
  · simp only [get_timer_mode_effectiveness, h]
    rcases hp : (analyzeSessions (sessionsByType st "pomodoro")
        "Pomodoro").average_speed with _ | ps <;>
      simp [_get_mode_recommendation, hp, analyzeSessions]
  · simp only [get_timer_mode_effectiveness, h]
    rcases hp : (analyzeSessions (sessionsByType st "pomodoro")
        "Pomodoro").average_speed with _ | ps <;>
      rcases hs : (analyzeSessions (sessionsByType st "sprint")
        "Sprint").average_speed with _ | ss <;>
      simp [_get_mode_recommendation, hp, hs, analyzeSessions]

/-- Witness for C10: a store with two pomodoro and two regular data-bearing
sessions but no sprint session yields the empty result. -/
theorem timer_mode_empty_partition_witness :
    get_timer_mode_effectiveness modesStore = none :=
  timer_mode_empty_partition modesStore (Or.inr (Or.inl (by decide)))

/-! ## The explicit form of a per-document estimate (shared helper) -/

/-- Equation form of `estimate_document_completion` for a found document. -/
theorem estimate_document_completion_eq (st : Store) (docId : Nat)
    (doc : Document)
    (hfind : st.documents.find? (fun d => d.id == docId) = some doc) :
    estimate_document_completion st docId = some
      { document_id := docId
        total_pages := pyOrZ doc.total_pages 0
        current_page := pyOrZ doc.current_page 1
        remaining_pages := docRemainingPages doc
        progress_percent := roundQ1
          (if 0 < pyOrZ doc.total_pages 0 then
            (pyOrZ doc.current_page 1 : ℚ) / (pyOrZ doc.total_pages 0 : ℚ) * 100
           else 0)
        avg_time_per_page_seconds :=
          roundQ1 (_get_document_reading_speed st docId)
        estimated_time_remaining_minutes :=
          roundQ1 (docEstimatedMinutes st docId doc)
        estimated_completion_date :=
          if 0 < _get_daily_reading_average st then
            (if docEstimatedMinutes st docId doc /
                _get_daily_reading_average st = 0 then none
             else some (st.now + docEstimatedMinutes st docId doc /
                _get_daily_reading_average st))
          else none
        confidence_level := _calculate_confidence_level st docId } := by
  simp only [estimate_document_completion, hfind]

/-- Helper: `x or 0` on a present integer column is the value itself. -/
theorem pyOrZ_some_zero (v : ℤ) : pyOrZ (some v) 0 = v := by
  show (if v = 0 then (0 : ℤ) else v) = v
  split_ifs with h <;> omega

/-- Helper: `x or d` on a present non-zero integer column is the value. -/
theorem pyOrZ_some_of_ne (v d : ℤ) (h : v ≠ 0) : pyOrZ (some v) d = v := by
  show (if v = 0 then d else v) = v
  rw [if_neg h]

/-! ## C2: the completion date of an estimate -/

/-- C2 (amended): for every found document the estimate's completion date is
null exactly when `daily_average_minutes ≤ 0` or the estimated remaining
minutes are 0 (`if days_to_complete:` is falsy at 0.0, e.g. for a finished
document), and any non-null date equals now plus
`estimated_minutes / daily_average_minutes` days. -/
theorem completion_date_characterization (st : Store) (docId : Nat)
    (doc : Document)
    (hfind : st.documents.find? (fun d => d.id == docId) = some doc) :
    ∃ est, estimate_document_completion st docId = some est ∧
      (est.estimated_completion_date = none ↔
        _get_daily_reading_average st ≤ 0 ∨
          docEstimatedMinutes st docId doc = 0) ∧
      (∀ t, est.estimated_completion_date = some t →
        t = st.now + docEstimatedMinutes st docId doc /
          _get_daily_reading_average st) := by
  refine ⟨_, estimate_document_completion_eq st docId doc hfind, ?_, ?_⟩
  · simp only
    split_ifs with h1 h2
    · refine iff_of_true rfl ?_
      rcases div_eq_zero_iff.1 h2 with hm | ha
      · exact Or.inr hm
      · exact absurd ha (ne_of_gt h1)
    · refine iff_of_false (by simp) ?_
      rintro (hle | hm)
      · exact absurd h1 (not_lt.2 hle)
      · exact h2 (by rw [hm, zero_div])
    · exact iff_of_true rfl (Or.inl (not_lt.1 h1))
  · intro t ht
    simp only at ht
    split_ifs at ht with h1 h2
    all_goals exact (Option.some.inj ht).symm

/-- Witness for C2: a document at page 1 of 10 with no sessions gets the
default speed, 18 estimated minutes, a 30-minute daily average and hence a
completion date. -/
theorem completion_date_characterization_witness :
    ∃ est, estimate_document_completion ninePagesStore 1 = some est ∧
      (est.estimated_completion_date = none ↔
        _get_daily_reading_average ninePagesStore ≤ 0 ∨
          docEstimatedMinutes ninePagesStore 1 ⟨1, some 10, some 1⟩ = 0) ∧
      (∀ t, est.estimated_completion_date = some t →
        t = ninePagesStore.now +
          docEstimatedMinutes ninePagesStore 1 ⟨1, some 10, some 1⟩ /
            _get_daily_reading_average ninePagesStore) :=
  completion_date_characterization ninePagesStore 1 ⟨1, some 10, some 1⟩
    (by decide)

/-- Counterexample for C2 as stated: on a fully read document the daily
average is positive (30.0) and yet the completion date is null, so the date
is not null exactly when `daily_average_minutes ≤ 0`. -/
theorem completion_date_null_despite_positive_average :
    0 < _get_daily_reading_average doneDocStore ∧
      (estimate_document_completion doneDocStore 1).map
        (fun e => e.estimated_completion_date) = some none := by
  have havg : _get_daily_reading_average doneDocStore = 30 := by
    norm_num [_get_daily_reading_average, windowDurations, doneDocStore]
  have hm : docEstimatedMinutes doneDocStore 1 ⟨1, some 10, some 10⟩ = 0 := by
    have hrem : docRemainingPages ⟨1, some 10, some 10⟩ = 0 := by decide
    unfold docEstimatedMinutes
    rw [hrem]
    norm_num
  refine ⟨by rw [havg]; norm_num, ?_⟩
  rw [estimate_document_completion_eq doneDocStore 1 ⟨1, some 10, some 10⟩ rfl]
  simp only [Option.map_some', Option.some.injEq]
  rw [hm, zero_div, if_pos rfl, if_pos (by rw [havg]; norm_num)]

/-! ## C7: monotonicity in the current page -/

/-- Rounding to one decimal is monotone. -/
theorem roundQ1_mono {x y : ℚ} (h : x ≤ y) : roundQ1 x ≤ roundQ1 y := by
  unfold roundQ1
  have hr : round (x * 10) ≤ round (y * 10) := by
    rw [round_eq, round_eq]
    exact Int.floor_mono (by linarith)
  have hc : ((round (x * 10) : ℤ) : ℚ) ≤ ((round (y * 10) : ℤ) : ℚ) :=
    Int.cast_le.2 hr
  linarith

/-- C7 (amended): with the session history fixed, moving the current page
from `c1` to a larger `c2` that is still within the page count strictly
decreases `remaining_pages` and the raw estimated minutes (provided the
time-per-page figure is positive), and weakly decreases the reported
(1-decimal-rounded) minutes. -/
theorem remaining_and_minutes_decrease (sess : List ReadingSession) (now : ℚ)
    (docId : Nat) (tp c1 c2 : ℤ) (h1 : 1 ≤ c1) (h12 : c1 < c2) (h2 : c2 ≤ tp)
    (hspeed : 0 < _get_document_reading_speed
      ⟨[⟨docId, some tp, some c1⟩], sess, now⟩ docId) :
    ∃ e1 e2,
      estimate_document_completion
        ⟨[⟨docId, some tp, some c1⟩], sess, now⟩ docId = some e1 ∧
      estimate_document_completion
        ⟨[⟨docId, some tp, some c2⟩], sess, now⟩ docId = some e2 ∧
      e2.remaining_pages < e1.remaining_pages ∧
      docEstimatedMinutes ⟨[⟨docId, some tp, some c2⟩], sess, now⟩ docId
          ⟨docId, some tp, some c2⟩ <
        docEstimatedMinutes ⟨[⟨docId, some tp, some c1⟩], sess, now⟩ docId
          ⟨docId, some tp, some c1⟩ ∧
      e2.estimated_time_remaining_minutes ≤
        e1.estimated_time_remaining_minutes := by
  have hfind1 : (⟨[⟨docId, some tp, some c1⟩], sess, now⟩ : Store).documents.find?
      (fun d => d.id == docId) = some ⟨docId, some tp, some c1⟩ := by
    simp [List.find?]
  have hfind2 : (⟨[⟨docId, some tp, some c2⟩], sess, now⟩ : Store).documents.find?
      (fun d => d.id == docId) = some ⟨docId, some tp, some c2⟩ := by
    simp [List.find?]
  have hrem1 : docRemainingPages ⟨docId, some tp, some c1⟩ = tp - c1 := by
    unfold docRemainingPages
    rw [pyOrZ_some_zero, pyOrZ_some_of_ne c1 1 (by omega)]
    omega
  have hrem2 : docRemainingPages ⟨docId, some tp, some c2⟩ = tp - c2 := by
    unfold docRemainingPages
    rw [pyOrZ_some_zero, pyOrZ_some_of_ne c2 1 (by omega)]
    omega
  have hspeed2 : 0 < _get_document_reading_speed
      ⟨[⟨docId, some tp, some c2⟩], sess, now⟩ docId := hspeed
  have hmin : docEstimatedMinutes ⟨[⟨docId, some tp, some c2⟩], sess, now⟩
      docId ⟨docId, some tp, some c2⟩ <
      docEstimatedMinutes ⟨[⟨docId, some tp, some c1⟩], sess, now⟩ docId
        ⟨docId, some tp, some c1⟩ := by
    have hsp : _get_document_reading_speed
        ⟨[⟨docId, some tp, some c2⟩], sess, now⟩ docId =
        _get_document_reading_speed
          ⟨[⟨docId, some tp, some c1⟩], sess, now⟩ docId := rfl
    unfold docEstimatedMinutes
    rw [hrem1, hrem2, hsp]
    have hcast : ((tp - c2 : ℤ) : ℚ) < ((tp - c1 : ℤ) : ℚ) := by
      exact_mod_cast (by omega : tp - c2 < tp - c1)
    have hmul := mul_lt_mul_of_pos_right hcast hspeed
    linarith
  refine ⟨_, _, estimate_document_completion_eq _ _ _ hfind1,
    estimate_document_completion_eq _ _ _ hfind2, ?_, hmin, ?_⟩
  · simp only
    rw [hrem1, hrem2]
    omega
  · simp only
    exact roundQ1_mono (le_of_lt hmin)

/-- Witness for C7 (amended): moving from page 1 to page 2 of a 10-page
document with no sessions (120 s/page default speed). -/
theorem remaining_and_minutes_decrease_witness :
    ∃ e1 e2,
      estimate_document_completion
        ⟨[⟨1, some 10, some 1⟩], [], 0⟩ 1 = some e1 ∧
      estimate_document_completion
        ⟨[⟨1, some 10, some 2⟩], [], 0⟩ 1 = some e2 ∧
      e2.remaining_pages < e1.remaining_pages ∧
      docEstimatedMinutes ⟨[⟨1, some 10, some 2⟩], [], 0⟩ 1
          ⟨1, some 10, some 2⟩ <
        docEstimatedMinutes ⟨[⟨1, some 10, some 1⟩], [], 0⟩ 1
          ⟨1, some 10, some 1⟩ ∧
      e2.estimated_time_remaining_minutes ≤
        e1.estimated_time_remaining_minutes :=
  remaining_and_minutes_decrease [] 0 1 10 1 2 (by norm_num) (by norm_num)
    (by norm_num) (by decide)

/-- Counterexample for C7 as stated: once the current page reaches or passes
the page count, increasing it further leaves `remaining_pages` (and the
estimated minutes) unchanged at 0, so the decrease is not strict for every
increase of `current_page`. -/
theorem remaining_not_strict_beyond_last_page :
    (estimate_document_completion doneDocStore 1).map
      (fun e => e.remaining_pages) = some 0 ∧
    (estimate_document_completion pastDocStore 1).map
      (fun e => e.remaining_pages) = some 0 ∧
    (estimate_document_completion doneDocStore 1).map
      (fun e => e.estimated_time_remaining_minutes) = some 0 ∧
    (estimate_document_completion pastDocStore 1).map
      (fun e => e.estimated_time_remaining_minutes) = some 0 := by
  rw [estimate_document_completion_eq doneDocStore 1 ⟨1, some 10, some 10⟩ rfl,
    estimate_document_completion_eq pastDocStore 1 ⟨1, some 10, some 11⟩ rfl]
  have hm1 : docEstimatedMinutes doneDocStore 1 ⟨1, some 10, some 10⟩ = 0 := by
    have hrem : docRemainingPages ⟨1, some 10, some 10⟩ = 0 := by decide
    unfold docEstimatedMinutes
    rw [hrem]
    norm_num
  have hm2 : docEstimatedMinutes pastDocStore 1 ⟨1, some 10, some 11⟩ = 0 := by
    have hrem : docRemainingPages ⟨1, some 10, some 11⟩ = 0 := by decide
    unfold docEstimatedMinutes
    rw [hrem]
    norm_num
  simp only [Option.map_some', Option.some.injEq]
  rw [hm1, hm2]
  refine ⟨by decide, by decide, ?_, ?_⟩ <;>
    simp [roundQ1]

/-! ## C3: goal feasibility -/

/-- C3 (amended): a target date with zero or negative day distance
short-circuits to infeasible with the reason string
`"Target date is in the past or today"` and a zero required rate, for any
document selection; otherwise no reason is reported, the returned
`required_daily_minutes` is `total_estimated_minutes / days_available`
rounded to one decimal, and feasibility holds exactly when the unrounded
ratio is at most 1.5 times the daily average. -/
theorem goal_feasibility_characterization (st : Store) (target : ℚ)
    (ids : Option (List Nat)) :
    (goalDaysAvailable st target ≤ 0 →
      estimate_goal_feasibility st target ids =
        { feasible := false
          reason := some "Target date is in the past or today"
          required_daily_minutes := 0
          days_available := none
          total_estimated_minutes := none
          current_daily_average := none }) ∧
    (0 < goalDaysAvailable st target →
      (estimate_goal_feasibility st target ids).reason = none ∧
      (estimate_goal_feasibility st target ids).required_daily_minutes =
        roundQ1 (goalTotalMinutes st ids /
          (goalDaysAvailable st target : ℚ)) ∧
      ((estimate_goal_feasibility st target ids).feasible = true ↔
        goalTotalMinutes st ids / (goalDaysAvailable st target : ℚ) ≤
          _get_daily_reading_average st * (3 / 2))) := by
  constructor
  · intro h
    simp only [estimate_goal_feasibility]
    rw [if_pos h]
  · intro h
    simp only [estimate_goal_feasibility]
    rw [if_neg (by omega)]
    refine ⟨rfl, rfl, ?_⟩
    simp [decide_eq_true_eq]

/-- Witness for C3 (amended): a deadline one day in the past on a store with
one finished document. -/
theorem goal_feasibility_characterization_witness :
    estimate_goal_feasibility doneDocStore (-1) none =
      { feasible := false
        reason := some "Target date is in the past or today"
        required_daily_minutes := 0
        days_available := none
        total_estimated_minutes := none
        current_daily_average := none } :=
  (goal_feasibility_characterization doneDocStore (-1) none).1
    (by norm_num [goalDaysAvailable, doneDocStore])

/-- Counterexample for C3 as stated: the reason string produced by the code
is `"Target date is in the past or today"`, not `"deadline in past or
today"`; moreover the returned `required_daily_minutes` is the rounded
value `33/10`, not the exact ratio `10/3` (10 estimated minutes over 3
days). -/
theorem goal_feasibility_reason_and_rounding :
    (estimate_goal_feasibility doneDocStore (-1) none).feasible = false ∧
    (estimate_goal_feasibility doneDocStore (-1) none).reason =
      some "Target date is in the past or today" ∧
    (estimate_goal_feasibility doneDocStore (-1) none).reason ≠
      some "deadline in past or today" ∧
    (estimate_goal_feasibility fivePagesStore 3 none).required_daily_minutes ≠
      goalTotalMinutes fivePagesStore none /
        (goalDaysAvailable fivePagesStore 3 : ℚ) := by
  have hdpast : goalDaysAvailable doneDocStore (-1) ≤ 0 := by
    norm_num [goalDaysAvailable, doneDocStore]
  have hpast : estimate_goal_feasibility doneDocStore (-1) none =
      { feasible := false
        reason := some "Target date is in the past or today"
        required_daily_minutes := 0
        days_available := none
        total_estimated_minutes := none
        current_daily_average := none } := by
    simp only [estimate_goal_feasibility]
    rw [if_pos hdpast]
  have hd3 : goalDaysAvailable fivePagesStore 3 = 3 := by
    norm_num [goalDaysAvailable, fivePagesStore]
  have hm : docEstimatedMinutes fivePagesStore 1 ⟨1, some 6, some 1⟩ = 10 := by
    have hrem : docRemainingPages ⟨1, some 6, some 1⟩ = 5 := by decide
    have hspd : _get_document_reading_speed fivePagesStore 1 = 120 := by decide
    unfold docEstimatedMinutes
    rw [hrem, hspd]
    norm_num
  have ht : goalTotalMinutes fivePagesStore none = 10 := by
    unfold goalTotalMinutes goalDocuments
    show ((([⟨1, some 6, some 1⟩] : List Document)).map (fun d =>
      ((estimate_document_completion fivePagesStore d.id).map
        (fun e => e.estimated_time_remaining_minutes)).getD 0)).sum = 10
    rw [List.map_cons, List.map_nil,
      estimate_document_completion_eq fivePagesStore 1 ⟨1, some 6, some 1⟩ rfl]
    simp only [Option.map_some', Option.getD_some, List.sum_cons, List.sum_nil]
    rw [hm]
    norm_num [roundQ1, round_eq]
  refine ⟨by rw [hpast], by rw [hpast], by rw [hpast]; simp, ?_⟩
  simp only [estimate_goal_feasibility]
  rw [if_neg (by omega), ht, hd3]
  norm_num [roundQ1, round_eq]

/-! ## C6: exception behaviour of the public operations -/

/-- C6 (amended): `get_reading_trends` returns a well-typed report for every
positive `days` argument (the other public operations are total in this
model: their component-boundary handlers return the empty result instead of
propagating, as `get_timer_mode_effectiveness` and
`analyze_reading_patterns` do, and `get_daily_stats`, `get_weekly_stats`,
`estimate_document_completion`, `estimate_all_documents_completion` and
`estimate_goal_feasibility` cannot raise). -/
theorem reading_trends_total_for_positive_days (st : Store) (days : ℤ)
    (h : 1 ≤ days) : (get_reading_trends st days).isSome = true := by
  have hlen : (trendEntries st days).length = days.toNat := by
    rw [trendEntries, List.length_map, List.length_range]
  rcases hne : trendEntries st days with _ | ⟨t, ts⟩
  · rw [hne] at hlen
    simp at hlen
    omega
  · simp [get_reading_trends, hne]

/-- Witness for C6 (amended): a one-day trend report on the empty store. -/
theorem reading_trends_total_for_positive_days_witness :
    (get_reading_trends emptyStore 1).isSome = true :=
  reading_trends_total_for_positive_days emptyStore 1 (by norm_num)

/-- Counterexample for C6 as stated: `get_reading_trends` has no try/except,
and with `days = 0` its per-day list is empty, so `max(trends, key=...)`
raises `ValueError` to the caller (`none` models that uncaught exception) —
the operation does not return a well-typed result for every argument. -/
theorem reading_trends_raises_on_zero_days :
    get_reading_trends emptyStore 0 = none := by
  simp [get_reading_trends, trendEntries]

/-! ## Consistency score lemmas -/

/-- Rounding to one decimal over the reals is monotone. -/
theorem roundTo1R_mono {x y : ℝ} (h : x ≤ y) : roundTo1R x ≤ roundTo1R y := by
  unfold roundTo1R
  have hr : round (x * 10) ≤ round (y * 10) := by
    rw [round_eq, round_eq]
    exact Int.floor_mono (by linarith)
  have hc : ((round (x * 10) : ℤ) : ℝ) ≤ ((round (y * 10) : ℤ) : ℝ) :=
    Int.cast_le.2 hr
  linarith

/-- Rounding to one decimal fixes 0. -/
theorem roundTo1R_zero : roundTo1R 0 = 0 := by
  unfold roundTo1R
  rw [show ((0 : ℝ) * 10) = 0 by ring, round_zero]
  norm_num

/-- Rounding to one decimal fixes 100. -/
theorem roundTo1R_hundred : roundTo1R 100 = 100 := by
  unfold roundTo1R
  rw [show ((100 : ℝ) * 10) = ((1000 : ℤ) : ℝ) by norm_num, round_intCast]
  norm_num

/-- Rounding to one decimal preserves non-negativity. -/
theorem roundTo1R_nonneg {x : ℝ} (h : 0 ≤ x) : 0 ≤ roundTo1R x := by
  rw [← roundTo1R_zero]
  exact roundTo1R_mono h

/-- Rounding to one decimal preserves the upper bound 100. -/
theorem roundTo1R_le_100 {x : ℝ} (h : x ≤ 100) : roundTo1R x ≤ 100 := by
  rw [← roundTo1R_hundred]
  exact roundTo1R_mono h

/-- The mean of a list of non-negative values is non-negative. -/
theorem listMean_nonneg {xs : List ℚ} (h : ∀ x ∈ xs, 0 ≤ x) :
    0 ≤ listMean xs :=
  div_nonneg (List.sum_nonneg h) (Nat.cast_nonneg _)

/-- The mean of a non-empty constant list is the constant. -/
theorem listMean_const {xs : List ℚ} {c : ℚ} (hne : xs ≠ [])
    (h : ∀ x ∈ xs, x = c) : listMean xs = c := by
  unfold listMean
  rw [List.sum_eq_card_nsmul xs c h, nsmul_eq_mul]
  have hlen : (xs.length : ℚ) ≠ 0 :=
    Nat.cast_ne_zero.2 (by simpa [List.length_eq_zero] using hne)
  field_simp

/-- The centred squares of a constant list sum to 0. -/
theorem squares_sum_zero_of_const {xs : List ℚ} {c : ℚ} (hne : xs ≠ [])
    (h : ∀ x ∈ xs, x = c) :
    (xs.map (fun t => (t - listMean xs) ^ 2)).sum = 0 := by
  apply List.sum_eq_zero
  intro y hy
  obtain ⟨t, ht, rfl⟩ := List.mem_map.1 hy
  rw [h t ht, listMean_const hne h]
  ring

/-- The population variance is non-negative. -/
theorem popVariance_nonneg (xs : List ℚ) : 0 ≤ popVariance xs := by
  unfold popVariance
  apply div_nonneg _ (Nat.cast_nonneg _)
  apply List.sum_nonneg
  intro y hy
  obtain ⟨t, ht, rfl⟩ := List.mem_map.1 hy
  positivity

/-- The sample variance is non-negative. -/
theorem sampleVariance_nonneg (xs : List ℚ) : 0 ≤ sampleVariance xs := by
  unfold sampleVariance
  apply div_nonneg _ (Nat.cast_nonneg _)
  apply List.sum_nonneg
  intro y hy
  obtain ⟨t, ht, rfl⟩ := List.mem_map.1 hy
  positivity

/-- With at least two data points, the population variance is at most the
sample variance (the Bessel correction divides by the smaller `n - 1`). -/
theorem popVariance_le_sampleVariance {xs : List ℚ} (h2 : 2 ≤ xs.length) :
    popVariance xs ≤ sampleVariance xs := by
  unfold popVariance sampleVariance
  have hSnn : 0 ≤ (xs.map (fun t => (t - listMean xs) ^ 2)).sum := by
    apply List.sum_nonneg
    intro y hy
    obtain ⟨t, ht, rfl⟩ := List.mem_map.1 hy
    positivity
  have hc : ((xs.length - 1 : ℕ) : ℚ) = (xs.length : ℚ) - 1 := by
    rw [Nat.cast_sub (by omega)]
    norm_num
  rw [hc]
  have hn : (2 : ℚ) ≤ (xs.length : ℚ) := by exact_mod_cast h2
  rw [div_le_div_iff₀ (by linarith) (by linarith)]
  nlinarith

/-- Bounds for the analytics consistency score on non-negative data. -/
theorem analyticsConsistencyScore_bounds {xs : List ℚ}
    (hnn : ∀ x ∈ xs, 0 ≤ x) :
    0 ≤ analyticsConsistencyScore xs ∧ analyticsConsistencyScore xs ≤ 100 := by
  unfold analyticsConsistencyScore
  split_ifs with h1 h2
  · norm_num
  · norm_num
  · have hm : 0 < listMean xs := lt_of_le_of_ne (listMean_nonneg hnn)
      (Ne.symm h2)
    have hmr : (0 : ℝ) < ((listMean xs : ℚ) : ℝ) := by exact_mod_cast hm
    have hs : 0 ≤ Real.sqrt ((popVariance xs : ℚ) : ℝ) := Real.sqrt_nonneg _
    have hfrac : 0 ≤ Real.sqrt ((popVariance xs : ℚ) : ℝ) /
        ((listMean xs : ℚ) : ℝ) * 100 := by positivity
    exact ⟨roundTo1R_nonneg (le_max_left _ _),
      roundTo1R_le_100 (max_le (by norm_num) (by linarith))⟩

/-! ## C4: consistency score bounds and special values -/

/-- C4 (amended): on non-negative data both consistency scores lie in
[0, 100] whenever they are defined; two or more identical positive values
give exactly 100; fewer than 2 data points give 0; on two or more values
with mean exactly 0 the Analytics Aggregator's score is 0, while the Pattern
Analyzer's copy raises `ZeroDivisionError` (`none`) instead of returning 0. -/
theorem consistency_score_properties (xs : List ℚ) :
    ((∀ x ∈ xs, 0 ≤ x) →
      0 ≤ analyticsConsistencyScore xs ∧ analyticsConsistencyScore xs ≤ 100) ∧
    ((∀ x ∈ xs, 0 ≤ x) → ∀ v, predictorConsistencyScore xs = some v →
      0 ≤ v ∧ v ≤ 100) ∧
    (∀ c : ℚ, 2 ≤ xs.length → (∀ x ∈ xs, x = c) → 0 < c →
      analyticsConsistencyScore xs = 100 ∧
        predictorConsistencyScore xs = some 100) ∧
    (xs.length < 2 → analyticsConsistencyScore xs = 0 ∧
      predictorConsistencyScore xs = some 0) ∧
    (2 ≤ xs.length → listMean xs = 0 →
      analyticsConsistencyScore xs = 0 ∧
        predictorConsistencyScore xs = none) := by
  refine ⟨fun hnn => analyticsConsistencyScore_bounds hnn, ?_, ?_, ?_, ?_⟩
  · intro hnn v hv
    unfold predictorConsistencyScore at hv
    split_ifs at hv with h1 h2
    · rw [← Option.some.inj hv]
      norm_num
    · rw [← Option.some.inj hv]
      have hm : 0 < listMean xs := lt_of_le_of_ne (listMean_nonneg hnn)
        (Ne.symm h2)
      have hmr : (0 : ℝ) < ((listMean xs : ℚ) : ℝ) := by exact_mod_cast hm
      have hs : 0 ≤ Real.sqrt ((sampleVariance xs : ℚ) : ℝ) :=
        Real.sqrt_nonneg _
      have hfrac : 0 ≤ Real.sqrt ((sampleVariance xs : ℚ) : ℝ) /
          ((listMean xs : ℚ) : ℝ) * 100 := by positivity
      exact ⟨roundTo1R_nonneg (le_max_left _ _),
        roundTo1R_le_100 (max_le (by norm_num) (by linarith))⟩
  · intro c h2 hc hcpos
    have hne : xs ≠ [] := by
      intro h
      rw [h] at h2
      simp at h2
    have hm := listMean_const hne hc
    have hzero := squares_sum_zero_of_const hne hc
    have hpv : popVariance xs = 0 := by
      unfold popVariance
      rw [hzero, zero_div]
    have hsv : sampleVariance xs = 0 := by
      unfold sampleVariance
      rw [hzero, zero_div]
    have hm0 : ¬ listMean xs = 0 := by
      rw [hm]
      exact ne_of_gt hcpos
    constructor
    · unfold analyticsConsistencyScore
      rw [if_neg (by omega), if_neg hm0, hpv]
      push_cast
      rw [Real.sqrt_zero, zero_div, zero_mul, sub_zero,
        max_eq_right (by norm_num : (0 : ℝ) ≤ 100), roundTo1R_hundred]
    · unfold predictorConsistencyScore
      rw [if_neg (by omega), if_neg hm0, hsv]
      push_cast
      rw [Real.sqrt_zero, zero_div, zero_mul, sub_zero,
        max_eq_right (by norm_num : (0 : ℝ) ≤ 100), roundTo1R_hundred]
  · intro h
    constructor
    · unfold analyticsConsistencyScore
      rw [if_pos h]
    · unfold predictorConsistencyScore
      rw [if_pos h]
  · intro h2 hm
    constructor
    · unfold analyticsConsistencyScore
      rw [if_neg (by omega), if_pos hm]
    · unfold predictorConsistencyScore
      rw [if_neg (by omega), if_pos hm]

/-- Witness for C4 (amended): the analytics score of `[1, 2, 3]` lies in
[0, 100]. -/
theorem consistency_score_properties_witness :
    0 ≤ analyticsConsistencyScore [1, 2, 3] ∧
      analyticsConsistencyScore [1, 2, 3] ≤ 100 :=
  (consistency_score_properties [1, 2, 3]).1 (by decide)

/-- Counterexample for C4 as stated: on the list `[0, 0]` (two identical
non-negative values whose mean is 0) the Analytics Aggregator's score is 0,
not 100, and the Pattern Analyzer's copy raises `ZeroDivisionError`
(modelled `none`) rather than returning 0. -/
theorem predictor_score_raises_on_zero_mean :
    analyticsConsistencyScore [(0 : ℚ), 0] = 0 ∧
      predictorConsistencyScore [(0 : ℚ), 0] = none := by
  have hm : listMean [(0 : ℚ), 0] = 0 := by
    norm_num [listMean]
  constructor
  · unfold analyticsConsistencyScore
    rw [if_neg (by norm_num), if_pos hm]
  · unfold predictorConsistencyScore
    rw [if_neg (by norm_num), if_pos hm]

/-! ## C5: the two consistency score implementations differ -/

/-- C5 (amended): both implementations share the outer formula
`round(max(0, 100 - stddev/mean * 100), 1)`, but the Analytics Aggregator
uses the population standard deviation while the Pattern Analyzer uses the
sample standard deviation; on non-negative data, wherever the Pattern
Analyzer's score is defined it is at most the Analytics Aggregator's score
(they agree on lists of fewer than 2 values, and on constant lists), and in
general they differ. -/
theorem consistency_scores_comparison (xs : List ℚ)
    (hnn : ∀ x ∈ xs, 0 ≤ x) :
    (xs.length < 2 →
      predictorConsistencyScore xs = some (analyticsConsistencyScore xs)) ∧
    (∀ v, predictorConsistencyScore xs = some v →
      v ≤ analyticsConsistencyScore xs) := by
  constructor
  · intro h
    unfold predictorConsistencyScore analyticsConsistencyScore
    rw [if_pos h, if_pos h]
  · intro v hv
    unfold predictorConsistencyScore at hv
    by_cases h1 : xs.length < 2
    · rw [if_pos h1] at hv
      rw [← Option.some.inj hv]
      unfold analyticsConsistencyScore
      rw [if_pos h1]
    · by_cases h2 : listMean xs = 0
      · rw [if_neg h1, if_pos h2] at hv
        exact absurd hv (by simp)
      rw [if_neg h1, if_neg h2] at hv
      have hm : 0 < listMean xs := lt_of_le_of_ne (listMean_nonneg hnn)
        (Ne.symm h2)
      have hmr : (0 : ℝ) < ((listMean xs : ℚ) : ℝ) := by exact_mod_cast hm
      have hvar : popVariance xs ≤ sampleVariance xs :=
        popVariance_le_sampleVariance (by omega)
      have hsq : Real.sqrt ((popVariance xs : ℚ) : ℝ) ≤
          Real.sqrt ((sampleVariance xs : ℚ) : ℝ) :=
        Real.sqrt_le_sqrt (by exact_mod_cast hvar)
      unfold analyticsConsistencyScore
      rw [if_neg h1, if_neg h2, ← Option.some.inj hv]
      apply roundTo1R_mono
      apply max_le_max le_rfl
      have hdiv : Real.sqrt ((popVariance xs : ℚ) : ℝ) /
          ((listMean xs : ℚ) : ℝ) ≤
          Real.sqrt ((sampleVariance xs : ℚ) : ℝ) /
            ((listMean xs : ℚ) : ℝ) :=
        (div_le_div_iff_of_pos_right hmr).mpr hsq
      nlinarith

/-- Witness for C5 (amended): on a single-element list the two scores agree
(both 0). -/
theorem consistency_scores_comparison_witness :
    predictorConsistencyScore [(5 : ℚ)] =
      some (analyticsConsistencyScore [(5 : ℚ)]) :=
  (consistency_scores_comparison [(5 : ℚ)] (by decide)).1 (by norm_num)

/-- Counterexample for C5 as stated: on the list `[1, 2]` the Analytics
Aggregator's score is `66.7` (population standard deviation `1/2`) while the
Pattern Analyzer's score is `52.9` (sample standard deviation `sqrt(1/2)`),
so the two implementations are not the same formula. -/
theorem consistency_scores_differ :
    analyticsConsistencyScore [1, 2] = 667 / 10 ∧
    predictorConsistencyScore [1, 2] = some (529 / 10) ∧
    ((529 : ℝ) / 10 ≠ 667 / 10) := by
  have hlen : ¬ (([1, 2] : List ℚ).length < 2) := by norm_num
  have hm : listMean [(1 : ℚ), 2] = 3 / 2 := by norm_num [listMean]
  have hm0 : ¬ listMean [(1 : ℚ), 2] = 0 := by
    rw [hm]
    norm_num
  have hpv : popVariance [(1 : ℚ), 2] = 1 / 4 := by
    norm_num [popVariance, listMean]
  have hsv : sampleVariance [(1 : ℚ), 2] = 1 / 2 := by
    norm_num [sampleVariance, listMean]
  refine ⟨?_, ?_, by norm_num⟩
  · unfold analyticsConsistencyScore
    rw [if_neg hlen, if_neg hm0, hpv, hm]
    have hsq : Real.sqrt (((1 / 4 : ℚ)) : ℝ) = 1 / 2 := by
      rw [show (((1 / 4 : ℚ)) : ℝ) = (1 / 2 : ℝ) ^ 2 by push_cast; norm_num]
      exact Real.sqrt_sq (by norm_num)
    rw [hsq]
    have hin : (100 : ℝ) - 1 / 2 / (((3 / 2 : ℚ)) : ℝ) * 100 = 200 / 3 := by
      push_cast
      norm_num
    rw [hin, max_eq_right (by norm_num : (0 : ℝ) ≤ 200 / 3)]
    unfold roundTo1R
    rw [round_eq]
    have hfl : ⌊(200 / 3 : ℝ) * 10 + 1 / 2⌋ = 667 := by
      rw [Int.floor_eq_iff]
      constructor <;> norm_num
    rw [hfl]
    norm_num
  · unfold predictorConsistencyScore
    rw [if_neg hlen, if_neg hm0, hsv, hm]
    set s : ℝ := Real.sqrt (((1 / 2 : ℚ)) : ℝ) with hs_def
    have hs0 : 0 ≤ s := Real.sqrt_nonneg _
    have hs2 : s ^ 2 = 1 / 2 := by
      rw [hs_def, Real.sq_sqrt (by push_cast; norm_num)]
      push_cast
      norm_num
    have hlb : (707 / 1000 : ℝ) < s := by nlinarith
    have hub : s < 7072 / 10000 := by nlinarith
    have hcast : (((3 / 2 : ℚ)) : ℝ) = 3 / 2 := by push_cast; norm_num
    rw [hcast]
    have hpos : (0 : ℝ) ≤ 100 - s / (3 / 2) * 100 := by nlinarith
    rw [max_eq_right hpos]
    unfold roundTo1R
    rw [round_eq]
    have hfl : ⌊((100 : ℝ) - s / (3 / 2) * 100) * 10 + 1 / 2⌋ = 529 := by
      rw [Int.floor_eq_iff]
      constructor <;> nlinarith
    rw [hfl]
    norm_num

end SprintReader
